import Mathlib

/-!
Verification of the inner-orbit repository: two Phaser-based browser demos.

The embedding models, from `src/innerorbit-game/src/main.js`:
  * `WaveShaderPipeline` — a pipeline whose only state is a frame-time scalar
    `time` and the last value uploaded to the `uTime` uniform.  JS numbers are
    modelled as exact rationals (the increments are the literal `0.01`).
  * `ShaderScene` — the game scene.  Its mutable per-scene fields (`score`,
    `scoreText`, `gameOver`, `gameOverText.visible`, `shaderEnabled`, the
    pipeline assignment of the sky / platforms / stars / player / bombs, the
    player's kinematic state and the star / bomb collections) form a state
    record; each engine callback (`create`, `update`, `collectStar`,
    `hitBomb`, the `pointerdown` and `keydown-S` handlers) becomes a state
    transformer, and a step relation wires them to engine-delivered events.
    Per the engine contract, collision/overlap callbacks only fire while the
    arcade-physics world is not paused, and an overlap with a star requires
    that star's body to be active and enabled.
and, from `src/src/main.js`, the tutorial scene (preload / create / update).
-/

namespace InnerOrbit

/-- A rendering pipeline assignment of a game object.  `setPipeline('Wave')`
installs the wave pipeline, `resetPipeline()` restores the engine default. -/
inductive PKind where
  | wave
  | default
deriving DecidableEq, Repr

/-- State of `WaveShaderPipeline`: the constructor sets `this.time = 0`; the
`uTime` uniform is unset (`none`) until the first `onPreRender` uploads it. -/
structure WavePipeline where
  time : ℚ
  uTime : Option ℚ
deriving DecidableEq, Repr

/-- `new WaveShaderPipeline(game)`: `this.time = 0`, no uniform uploaded yet. -/
def WavePipeline.init : WavePipeline :=
  { time := 0, uTime := none }

/-- `onPreRender()`: `this.set1f('uTime', this.time); this.time += 0.01;`. -/
def WavePipeline.onPreRender (p : WavePipeline) : WavePipeline :=
  { p with uTime := some p.time, time := p.time + 1 / 100 }

/-- The value uploaded to `uTime` by the `(n+1)`-st `onPreRender` call after
construction. -/
def uploadedAt (n : Nat) : Option ℚ :=
  ((WavePipeline.onPreRender)^[n + 1] WavePipeline.init).uTime

/-! ### Tutorial demo (`src/src/main.js`) -/

/-- Loader state: the configured base URL and the list of images queued for
download, as (key, resolved URL) pairs. -/
structure LoaderState where
  baseURL : String
  images : List (String × String)
deriving DecidableEq, Repr

/-- `this.load.setBaseURL(url)`.  Engine contract: a non-empty base URL whose
last character is not a slash gets one appended, and every subsequently
queued relative path is resolved against it. -/
def setBaseURL (l : LoaderState) (url : String) : LoaderState :=
  let u := if url ≠ "" ∧ url.back ≠ '/' then url ++ "/" else url
  { l with baseURL := u }

/-- `this.load.image(key, path)` with a relative path: the fetched URL is the
base URL followed by the path. -/
def loadImage (l : LoaderState) (key path : String) : LoaderState :=
  { l with images := l.images ++ [(key, l.baseURL ++ path)] }

/-- Tutorial scene state: loader state plus the display list of images added
by `this.add.image(x, y, key)`. -/
structure TutorialState where
  loader : LoaderState
  displayed : List (Int × Int × String)
deriving DecidableEq, Repr

/-- The tutorial scene before any callback has run. -/
def TutorialState.init : TutorialState :=
  { loader := { baseURL := "", images := [] }, displayed := [] }

/-- `preload()` of the tutorial scene. -/
def tutorialPreload (t : TutorialState) : TutorialState :=
  { t with loader :=
      loadImage (setBaseURL t.loader "https://labs.phaser.io") "sky" "assets/skies/space3.png" }

/-- `create()` of the tutorial scene. -/
def tutorialCreate (t : TutorialState) : TutorialState :=
  { t with displayed := t.displayed ++ [(400, 300, "sky")] }

/-- `update()` of the tutorial scene: an empty body. -/
def tutorialUpdate (t : TutorialState) : TutorialState :=
  t

/-! ### Game demo (`src/innerorbit-game/src/main.js`) -/

/-- A star sprite: position, active/visible flags and body-enable flag
(`disableBody(true, true)` clears all three, `enableBody(true, x, y, true,
true)` resets the body at `(x, y)` and restores them), and its pipeline.
The per-star random `bounceY` set in `create` is carried by the engine's
physics and read by nothing the scene observes, so it is not modelled. -/
structure Star where
  x : Int
  y : Int
  active : Bool
  visible : Bool
  bodyEnabled : Bool
  pipeline : Option PKind
deriving DecidableEq, Repr

/-- A bomb sprite created by `this.bombs.create(x, 16, 'bomb')` and then
configured with `setBounce(1)`, `setCollideWorldBounds(true)` and
`setVelocity(Between(-200, 200), 20)`. -/
structure Bomb where
  x : Int
  y : Int
  vx : Int
  vy : Int
  bounce : Int
  collideWorldBounds : Bool
  pipeline : Option PKind
deriving DecidableEq, Repr

/-- The mutable scene-local state of `ShaderScene` that the verified
properties observe.  `scoreText` is the text content of the score text
object; `gameOverTextVisible` is `this.gameOverText.visible`;
`physicsPaused` is the arcade world's pause flag set by
`this.physics.pause()`. -/
structure SceneState where
  score : Int
  scoreText : String
  gameOver : Bool
  gameOverTextVisible : Bool
  shaderEnabled : Bool
  physicsPaused : Bool
  skyPipeline : Option PKind
  platformPipelines : List (Option PKind)
  playerPipeline : Option PKind
  playerX : Int
  playerY : Int
  playerVX : Int
  playerVY : Int
  playerTint : Option Nat
  playerAnim : Option String
  stars : List Star
  bombs : List Bomb
deriving DecidableEq, Repr

/-- Replace the element at index `i` of a list by `f` of it (out-of-range
indices leave the list unchanged). -/
def modifyIdx {α : Type} : List α → Nat → (α → α) → List α
  | [], _, _ => []
  | a :: as, 0, f => f a :: as
  | a :: as, n + 1, f => a :: modifyIdx as n f

/-- `star.disableBody(true, true)`: disable the physics body, deactivate and
hide the game object. -/
def Star.disableBody (st : Star) : Star :=
  { st with active := false, visible := false, bodyEnabled := false }

/-- `child.enableBody(true, x, y, true, true)`: reset the body at `(x, y)`,
activate and show the game object. -/
def Star.enableBody (st : Star) (x y : Int) : Star :=
  { st with x := x, y := y, active := true, visible := true, bodyEnabled := true }

/-- `this.stars.countActive(true)`: the number of active children. -/
def countActive (stars : List Star) : Nat :=
  stars.countP (fun st => st.active)

/-- Engine contract for `Phaser.Math.Between(lo, hi)`: a uniformly drawn
integer in `[lo, hi]` (inclusive).  The random draw is threaded as an
explicit `seed` argument; any seed lands in the interval when `lo ≤ hi`. -/
def between (seed : Nat) (lo hi : Int) : Int :=
  lo + ((seed % (hi - lo + 1).toNat : Nat) : Int)

/-- The per-star transformation of the respawn branch of `collectStar`:
`child.enableBody(true, child.x, 0, true, true)` followed by
`setPipeline('Wave')` when the shader is enabled.  (Identical to the inline
closure in `collectStar`; named here for the proofs.) -/
def respawnStar (en : Bool) (child : Star) : Star :=
  let c := child.enableBody child.x 0
  if en then { c with pipeline := some PKind.wave } else c

namespace ShaderScene

/-- The scene state right after `create()` has run (also the state after
`this.scene.restart()`, which shuts the scene down and re-runs `create`):
score 0 with text `Score: 0`, game over false and its text hidden, shader
enabled with the Wave pipeline set on the sky, the four platforms, the
player and the twelve stars placed at `x = 12 + 70*i`, `y = 0`, and no
bombs. -/
def create : SceneState where
  score := 0
  scoreText := "Score: 0"
  gameOver := false
  gameOverTextVisible := false
  shaderEnabled := true
  physicsPaused := false
  skyPipeline := some PKind.wave
  platformPipelines := [some PKind.wave, some PKind.wave, some PKind.wave, some PKind.wave]
  playerPipeline := some PKind.wave
  playerX := 100
  playerY := 450
  playerVX := 0
  playerVY := 0
  playerTint := none
  playerAnim := none
  stars := (List.range 12).map (fun i =>
    { x := 12 + 70 * (i : Int), y := 0, active := true, visible := true,
      bodyEnabled := true, pipeline := some PKind.wave })
  bombs := []

/-- `update()`, with the polled cursor-key states and the engine-provided
`this.player.body.touching.down` passed as arguments.  The bomb loop's
`!child.pipeline` test is the JS truthiness test for a null pipeline
(`pipeline = none` here); a sprite's pipeline is initialised when the
sprite is constructed, so the test is defensive. -/
def update (s : SceneState) (left right up space touchingDown : Bool) : SceneState :=
  if s.gameOver then s
  else
    let s1 :=
      if left then { s with playerVX := -160, playerAnim := some "left" }
      else if right then { s with playerVX := 160, playerAnim := some "right" }
      else { s with playerVX := 0, playerAnim := some "turn" }
    let s2 :=
      if (up || space) && touchingDown then { s1 with playerVY := -350 } else s1
    if s2.shaderEnabled then
      { s2 with bombs := s2.bombs.map (fun child =>
          if child.pipeline = none then { child with pipeline := some PKind.wave }
          else child) }
    else s2

/-- `collectStar(player, star)` where `i` is the index of the overlapped star
and `seedX`, `seedV` are the random draws of the two `Phaser.Math.Between`
calls on the respawn path. -/
def collectStar (s : SceneState) (i : Nat) (seedX seedV : Nat) : SceneState :=
  let stars1 := modifyIdx s.stars i Star.disableBody
  let score1 := s.score + 10
  let s1 := { s with stars := stars1, score := score1,
                     scoreText := "Score: " ++ toString score1 }
  if countActive s1.stars = 0 then
    let stars2 := s1.stars.map (respawnStar s1.shaderEnabled)
    let x := if s1.playerX < 400 then between seedX 400 800 else between seedX 0 400
    let b0 : Bomb := { x := x, y := 16, vx := between seedV (-200) 200, vy := 20,
                       bounce := 1, collideWorldBounds := true,
                       pipeline := some PKind.default }
    let b1 := if s1.shaderEnabled then { b0 with pipeline := some PKind.wave } else b0
    { s1 with stars := stars2, bombs := s1.bombs ++ [b1] }
  else s1

/-- `hitBomb(player, bomb)`: pause physics, tint the player red, play the
`turn` animation, set the game-over flag and show the game-over text. -/
def hitBomb (s : SceneState) : SceneState :=
  { s with physicsPaused := true,
           playerTint := some 0xff0000,
           playerAnim := some "turn",
           gameOver := true,
           gameOverTextVisible := true }

/-- The `pointerdown` handler: `if (this.gameOver) this.scene.restart()`.
A restart re-runs `create`. -/
def pointerdown (s : SceneState) : SceneState :=
  if s.gameOver then create else s

/-- The `keydown-S` handler: flip `shaderEnabled`, then either set the Wave
pipeline on, or reset to the default pipeline of, the sky, every platform,
every star, the player and every bomb. -/
def keydownS (s : SceneState) : SceneState :=
  let en := !s.shaderEnabled
  if en then
    { s with shaderEnabled := en,
             skyPipeline := some PKind.wave,
             platformPipelines := s.platformPipelines.map (fun _ => some PKind.wave),
             stars := s.stars.map (fun c => { c with pipeline := some PKind.wave }),
             playerPipeline := some PKind.wave,
             bombs := s.bombs.map (fun b => { b with pipeline := some PKind.wave }) }
  else
    { s with shaderEnabled := en,
             skyPipeline := some PKind.default,
             platformPipelines := s.platformPipelines.map (fun _ => some PKind.default),
             stars := s.stars.map (fun c => { c with pipeline := some PKind.default }),
             playerPipeline := some PKind.default,
             bombs := s.bombs.map (fun b => { b with pipeline := some PKind.default }) }

end ShaderScene

/-- The engine-delivered events that drive the scene: an `update` tick with
the polled inputs, an overlap of the player with star `i` (with the random
draws of the respawn path), a player/bomb collision, a pointer click, and a
press of the S key. -/
inductive Event where
  | update (left right up space touchingDown : Bool)
  | collectStar (i seedX seedV : Nat)
  | hitBomb
  | pointerdown
  | keyS
deriving DecidableEq, Repr

/-- The engine fires the player/star overlap callback only while the arcade
world is not paused and only against a star whose game object is active and
whose body is enabled. -/
def canCollect (s : SceneState) (i : Nat) : Bool :=
  !s.physicsPaused &&
    match s.stars[i]? with
    | some st => st.active && st.bodyEnabled
    | none => false

/-- One engine step: route an event to its handler.  Collision callbacks
(`collectStar`, `hitBomb`) do not fire while the physics world is paused. -/
def step (s : SceneState) : Event → SceneState
  | Event.update l r u sp t => ShaderScene.update s l r u sp t
  | Event.collectStar i sx sv =>
      if canCollect s i then ShaderScene.collectStar s i sx sv else s
  | Event.hitBomb => if s.physicsPaused then s else ShaderScene.hitBomb s
  | Event.pointerdown => ShaderScene.pointerdown s
  | Event.keyS => ShaderScene.keydownS s

/-- Run a sequence of events. -/
def run (s : SceneState) (es : List Event) : SceneState :=
  es.foldl step s

/-- The states the scene can be in during its lifetime: the state `create`
leaves behind, closed under engine steps. -/
inductive Reachable : SceneState → Prop
  | init : Reachable ShaderScene.create
  | step {s : SceneState} (hs : Reachable s) (e : Event) : Reachable (step s e)



/-- Eleven successive star collections in the fresh scene, leaving only star
11 active. -/
def elevenCollections : List Event :=
  [Event.collectStar 0 0 0, Event.collectStar 1 0 0, Event.collectStar 2 0 0,
   Event.collectStar 3 0 0, Event.collectStar 4 0 0, Event.collectStar 5 0 0,
   Event.collectStar 6 0 0, Event.collectStar 7 0 0, Event.collectStar 8 0 0,
   Event.collectStar 9 0 0, Event.collectStar 10 0 0]

/-- The reachable state in which star 11 is the only active star. -/
def lastStarState : SceneState := run ShaderScene.create elevenCollections

/-- All tracked pipeline assignments of the scene equal `p`. -/
def AllPipes (s : SceneState) (p : Option PKind) : Prop :=
  s.skyPipeline = p ∧ s.playerPipeline = p ∧
  (∀ q ∈ s.platformPipelines, q = p) ∧
  (∀ st ∈ s.stars, st.pipeline = p) ∧
  (∀ b ∈ s.bombs, b.pipeline = p)

/-- The pipeline assignments agree with the `shaderEnabled` flag: everything
runs the Wave pipeline when the flag is set and the default pipeline
otherwise. -/
def PipelineSync (s : SceneState) : Prop :=
  AllPipes s (some (if s.shaderEnabled then PKind.wave else PKind.default))

/-! ### Theorems -/

/-- After `k` calls of `onPreRender`, the stored frame-time scalar is
`k / 100`. -/
theorem time_iterate (k : Nat) :
    ((WavePipeline.onPreRender)^[k] WavePipeline.init).time = (k : ℚ) / 100 := by
  induction k with
  | zero => simp [WavePipeline.init]
  | succ n ih =>
      rw [Function.iterate_succ_apply']
      simp only [WavePipeline.onPreRender, ih]
      push_cast
      ring

/-- C5: each `onPreRender` call uploads the current `this.time` to the
`uTime` uniform and then increments `this.time` by `0.01`, performing no
other state change; hence the `n`-th uploaded value is `n / 100` and the
sequence of uploaded values is strictly increasing. -/
theorem wave_time_monotone :
    (∀ p : WavePipeline,
        p.onPreRender = { time := p.time + 1 / 100, uTime := some p.time }) ∧
    (∀ n : Nat, uploadedAt n = some ((n : ℚ) / 100)) ∧
    (∀ n m : Nat, n < m → ∀ a b : ℚ,
        uploadedAt n = some a → uploadedAt m = some b → a < b) := by
  have hup : ∀ n : Nat, uploadedAt n = some ((n : ℚ) / 100) := by
    intro n
    rw [uploadedAt, Function.iterate_succ_apply']
    simp [WavePipeline.onPreRender, time_iterate n]
  refine ⟨fun p => rfl, hup, ?_⟩
  intro n m hnm a b ha hb
  rw [hup n] at ha
  rw [hup m] at hb
  obtain rfl : a = (n : ℚ) / 100 := by injection ha.symm
  obtain rfl : b = (m : ℚ) / 100 := by injection hb.symm
  have hq : (n : ℚ) < (m : ℚ) := by exact_mod_cast hnm
  linarith

/-- Witness for C5 at `n = 0 < m = 1`. -/
theorem wave_time_monotone_witness : (0 : ℚ) / 100 < (1 : ℚ) / 100 :=
  wave_time_monotone.2.2 0 1 (by norm_num) ((0 : ℚ) / 100) ((1 : ℚ) / 100)
    (wave_time_monotone.2.1 0) (wave_time_monotone.2.1 1)

/-- C6: a `pointerdown` event restarts the scene (re-running `create`)
exactly when the game-over flag holds; a click while `gameOver` is false
leaves the scene state unchanged. -/
theorem pointerdown_restart_iff (s : SceneState) :
    (s.gameOver = true → step s Event.pointerdown = ShaderScene.create) ∧
    (s.gameOver = false → step s Event.pointerdown = s) := by
  constructor
  · intro h
    simp [step, ShaderScene.pointerdown, h]
  · intro h
    simp [step, ShaderScene.pointerdown, h]

/-- Witness for C6: a click after a bomb hit restarts; a click in the fresh
scene is a no-op. -/
theorem pointerdown_restart_iff_witness :
    step (ShaderScene.hitBomb ShaderScene.create) Event.pointerdown = ShaderScene.create ∧
    step ShaderScene.create Event.pointerdown = ShaderScene.create :=
  ⟨(pointerdown_restart_iff (ShaderScene.hitBomb ShaderScene.create)).1 rfl,
   (pointerdown_restart_iff ShaderScene.create).2 rfl⟩

/-- C7: the tutorial scene's `preload` queues exactly one image, keyed
`sky`, fetched relative to the configured base URL; `create` displays it
exactly once at `(400, 300)`; `update` does nothing. -/
theorem tutorial_behavior :
    (tutorialPreload TutorialState.init).loader.images =
      [("sky", "https://labs.phaser.io/" ++ "assets/skies/space3.png")] ∧
    (tutorialPreload TutorialState.init).loader.baseURL = "https://labs.phaser.io/" ∧
    (tutorialCreate (tutorialPreload TutorialState.init)).displayed = [(400, 300, "sky")] ∧
    (∀ t : TutorialState, tutorialUpdate t = t) := by
  refine ⟨?_, ?_, ?_, fun t => rfl⟩ <;> decide

/-- C9: while the game is not over, `update` sets the horizontal velocity to
`-160` when the left cursor is down (taking precedence over right), `160`
when only the right cursor is down, and `0` otherwise; it sets the vertical
velocity to `-350` exactly when up or space is down and the body touches the
ground, leaving it unchanged otherwise. -/
theorem update_movement (s : SceneState) (l r u sp t : Bool)
    (h : s.gameOver = false) :
    (ShaderScene.update s l r u sp t).playerVX =
      (if l then -160 else if r then 160 else 0) ∧
    (ShaderScene.update s l r u sp t).playerVY =
      (if (u || sp) && t then -350 else s.playerVY) := by
  simp only [ShaderScene.update, h]
  split_ifs <;> simp_all

/-- Witness for C9: left and up held on the ground in the fresh scene. -/
theorem update_movement_witness :
    (ShaderScene.update ShaderScene.create true false true false true).playerVX =
      (if true then -160 else if false then 160 else 0) ∧
    (ShaderScene.update ShaderScene.create true false true false true).playerVY =
      (if (true || false) && true then -350 else ShaderScene.create.playerVY) :=
  update_movement ShaderScene.create true false true false true rfl

/-- `modifyIdx` preserves length. -/
theorem length_modifyIdx {α : Type} :
    ∀ (l : List α) (i : Nat) (f : α → α), (modifyIdx l i f).length = l.length
  | [], _, _ => rfl
  | _ :: as, 0, f => rfl
  | a :: as, i + 1, f => by simp [modifyIdx, length_modifyIdx as i f]

/-- Indexing into `modifyIdx`: the modified index is mapped, others are
untouched. -/
theorem getElem?_modifyIdx {α : Type} :
    ∀ (l : List α) (i : Nat) (f : α → α) (j : Nat),
      (modifyIdx l i f)[j]? = if j = i then Option.map f l[j]? else l[j]?
  | [], i, f, j => by simp [modifyIdx]
  | a :: as, 0, f, 0 => by simp [modifyIdx]
  | a :: as, 0, f, j + 1 => by simp [modifyIdx]
  | a :: as, i + 1, f, 0 => by simp [modifyIdx]
  | a :: as, i + 1, f, j + 1 => by
      simpa [modifyIdx] using getElem?_modifyIdx as i f j

/-- `Phaser.Math.Between(lo, hi)` lands in `[lo, hi]` whenever `lo ≤ hi`,
whatever the seed. -/
theorem between_mem (seed : Nat) (lo hi : Int) (h : lo ≤ hi) :
    lo ≤ between seed lo hi ∧ between seed lo hi ≤ hi := by
  unfold between
  have hpos : 0 < (hi - lo + 1).toNat := by omega
  have hm : seed % (hi - lo + 1).toNat < (hi - lo + 1).toNat := Nat.mod_lt _ hpos
  omega

/-- C2 (amended): every invocation of `collectStar` on an active star adds
exactly 10 to the score and sets the score text to `Score: ` followed by the
new score; it disables that star's body, and the disabled state persists in
the post-state whenever at least one star remains active after the disable
(when the collected star was the last active one, the respawn branch
immediately re-enables every star; see `collectStar_respawn`). -/
theorem collectStar_effect (s : SceneState) (i : Nat) (seedX seedV : Nat)
    (hi : i < s.stars.length) (ha : (s.stars.get ⟨i, hi⟩).active = true) :
    (ShaderScene.collectStar s i seedX seedV).score = s.score + 10 ∧
    (ShaderScene.collectStar s i seedX seedV).scoreText =
      "Score: " ++ toString (s.score + 10) ∧
    (countActive (modifyIdx s.stars i Star.disableBody) ≠ 0 →
      (ShaderScene.collectStar s i seedX seedV).stars[i]? =
        some (Star.disableBody (s.stars.get ⟨i, hi⟩)) ∧
      (Star.disableBody (s.stars.get ⟨i, hi⟩)).bodyEnabled = false ∧
      (Star.disableBody (s.stars.get ⟨i, hi⟩)).active = false) := by
  refine ⟨?_, ?_, ?_⟩
  · simp only [ShaderScene.collectStar]
    split <;> rfl
  · simp only [ShaderScene.collectStar]
    split <;> rfl
  · intro hcnt
    refine ⟨?_, rfl, rfl⟩
    have hbranch : ¬ countActive (modifyIdx s.stars i Star.disableBody) = 0 := hcnt
    simp only [ShaderScene.collectStar]
    rw [if_neg hbranch]
    rw [getElem?_modifyIdx s.stars i Star.disableBody i, if_pos rfl,
      List.getElem?_eq_getElem hi]
    rfl


/-- C2 counterexample: in the reachable state where star 11 is the last
active star, collecting it leaves that star's body enabled and the star
active in the post-state (the respawn branch re-enables it), so the claim's
"disables that star's body" fails for this invocation. -/
theorem collectStar_disable_cex :
    Option.map Star.active lastStarState.stars[11]? = some true ∧
    canCollect lastStarState 11 = true ∧
    Option.map Star.bodyEnabled
      ((ShaderScene.collectStar lastStarState 11 0 0).stars[11]?) = some true ∧
    Option.map Star.active
      ((ShaderScene.collectStar lastStarState 11 0 0).stars[11]?) = some true := by
  decide

/-- C8: when `collectStar` disables the last active star, every star in the
group is re-enabled at its current `x` and `y = 0` and exactly one new bomb
is appended, with `x` in `[400, 800]` when the player is left of 400 and in
`[0, 400]` otherwise; when at least one star remains active, the stars only
lose the collected one and no bomb is created. -/
theorem collectStar_respawn (s : SceneState) (i seedX seedV : Nat)
    (hi : i < s.stars.length)
    (ha : (s.stars.get ⟨i, hi⟩).active = true) :
    (countActive (modifyIdx s.stars i Star.disableBody) = 0 →
      (∀ j, ∀ hj : j < s.stars.length,
          ∃ st' : Star,
            (ShaderScene.collectStar s i seedX seedV).stars[j]? = some st' ∧
            st'.active = true ∧ st'.bodyEnabled = true ∧
            st'.x = (s.stars.get ⟨j, hj⟩).x ∧ st'.y = 0) ∧
      (∃ b : Bomb,
          (ShaderScene.collectStar s i seedX seedV).bombs = s.bombs ++ [b] ∧
          (s.playerX < 400 → 400 ≤ b.x ∧ b.x ≤ 800) ∧
          (¬ s.playerX < 400 → 0 ≤ b.x ∧ b.x ≤ 400))) ∧
    (countActive (modifyIdx s.stars i Star.disableBody) ≠ 0 →
      (ShaderScene.collectStar s i seedX seedV).stars =
        modifyIdx s.stars i Star.disableBody ∧
      (ShaderScene.collectStar s i seedX seedV).bombs = s.bombs) := by
  constructor
  · intro hcnt
    constructor
    · intro j hj
      have hj1 : j < (modifyIdx s.stars i Star.disableBody).length := by
        rw [length_modifyIdx]; exact hj
      have hxeq : ((modifyIdx s.stars i Star.disableBody).get ⟨j, hj1⟩).x =
          (s.stars.get ⟨j, hj⟩).x := by
        have h := getElem?_modifyIdx s.stars i Star.disableBody j
        rw [List.getElem?_eq_getElem hj1, List.getElem?_eq_getElem hj] at h
        by_cases hji : j = i
        · rw [if_pos hji, Option.map_some'] at h
          have h2 := Option.some.inj h
          rw [List.get_eq_getElem, List.get_eq_getElem, h2]
          rfl
        · rw [if_neg hji] at h
          have h2 := Option.some.inj h
          rw [List.get_eq_getElem, List.get_eq_getElem, h2]
      simp only [ShaderScene.collectStar]
      rw [if_pos hcnt]
      refine ⟨respawnStar s.shaderEnabled
          ((modifyIdx s.stars i Star.disableBody).get ⟨j, hj1⟩), ?_, ?_, ?_, ?_, ?_⟩
      · show (List.map _ (modifyIdx s.stars i Star.disableBody))[j]? = _
        rw [List.getElem?_map, List.getElem?_eq_getElem hj1, Option.map_some']
        rfl
      · unfold respawnStar
        split <;> rfl
      · unfold respawnStar
        split <;> rfl
      · rw [← hxeq]
        unfold respawnStar
        split <;> rfl
      · unfold respawnStar
        split <;> rfl
    · simp only [ShaderScene.collectStar]
      rw [if_pos hcnt]
      refine ⟨_, rfl, ?_, ?_⟩ <;> intro hplayer
      · rw [if_pos hplayer]
        split
        · exact between_mem seedX 400 800 (by norm_num)
        · exact between_mem seedX 400 800 (by norm_num)
      · rw [if_neg hplayer]
        split
        · exact between_mem seedX 0 400 (by norm_num)
        · exact between_mem seedX 0 400 (by norm_num)
  · intro hcnt
    simp only [ShaderScene.collectStar]
    rw [if_neg hcnt]
    exact ⟨rfl, rfl⟩

/-- Witness for C8: collecting star 0 in the fresh scene leaves eleven
active stars, so no respawn happens and no bomb is created. -/
theorem collectStar_respawn_witness :
    (ShaderScene.collectStar ShaderScene.create 0 0 0).stars =
      modifyIdx ShaderScene.create.stars 0 Star.disableBody ∧
    (ShaderScene.collectStar ShaderScene.create 0 0 0).bombs =
      ShaderScene.create.bombs :=
  (collectStar_respawn ShaderScene.create 0 0 0 (by decide) (by decide)).2 (by decide)

/-- Witness for C2 (amended) at star 0 of the fresh scene. -/
theorem collectStar_effect_witness :
    (ShaderScene.collectStar ShaderScene.create 0 0 0).score =
      ShaderScene.create.score + 10 ∧
    (ShaderScene.collectStar ShaderScene.create 0 0 0).scoreText =
      "Score: " ++ toString (ShaderScene.create.score + 10) :=
  ⟨(collectStar_effect ShaderScene.create 0 0 0 (by decide) (by decide)).1,
   (collectStar_effect ShaderScene.create 0 0 0 (by decide) (by decide)).2.1⟩

/-- `update` never changes the score, the score text, the game-over flag,
the game-over text's visibility or the pause flag. -/
theorem update_preserves (s : SceneState) (l r u sp t : Bool) :
    (ShaderScene.update s l r u sp t).score = s.score ∧
    (ShaderScene.update s l r u sp t).scoreText = s.scoreText ∧
    (ShaderScene.update s l r u sp t).gameOver = s.gameOver ∧
    (ShaderScene.update s l r u sp t).gameOverTextVisible = s.gameOverTextVisible ∧
    (ShaderScene.update s l r u sp t).physicsPaused = s.physicsPaused := by
  simp only [ShaderScene.update]
  split_ifs <;> exact ⟨rfl, rfl, rfl, rfl, rfl⟩

/-- `collectStar` never changes the game-over flag, the game-over text's
visibility or the pause flag. -/
theorem collectStar_preserves (s : SceneState) (i sx sv : Nat) :
    (ShaderScene.collectStar s i sx sv).gameOver = s.gameOver ∧
    (ShaderScene.collectStar s i sx sv).gameOverTextVisible = s.gameOverTextVisible ∧
    (ShaderScene.collectStar s i sx sv).physicsPaused = s.physicsPaused := by
  simp only [ShaderScene.collectStar]
  split_ifs <;> exact ⟨rfl, rfl, rfl⟩

/-- The `keydown-S` handler only touches the shader flag and pipelines. -/
theorem keydownS_preserves (s : SceneState) :
    (ShaderScene.keydownS s).score = s.score ∧
    (ShaderScene.keydownS s).scoreText = s.scoreText ∧
    (ShaderScene.keydownS s).gameOver = s.gameOver ∧
    (ShaderScene.keydownS s).gameOverTextVisible = s.gameOverTextVisible ∧
    (ShaderScene.keydownS s).physicsPaused = s.physicsPaused := by
  simp only [ShaderScene.keydownS]
  split_ifs <;> exact ⟨rfl, rfl, rfl, rfl, rfl⟩

/-- `collectStar` always adds exactly 10 to the score. -/
theorem collectStar_score (s : SceneState) (i sx sv : Nat) :
    (ShaderScene.collectStar s i sx sv).score = s.score + 10 := by
  simp only [ShaderScene.collectStar]
  split_ifs <;> rfl

/-- Once the game is over with physics paused, any single non-click event
leaves the score, the score text, the game-over flag and the pause flag
untouched. -/
theorem step_frozen (s : SceneState) (e : Event)
    (hg : s.gameOver = true) (hp : s.physicsPaused = true)
    (hne : e ≠ Event.pointerdown) :
    (step s e).score = s.score ∧ (step s e).scoreText = s.scoreText ∧
    (step s e).gameOver = true ∧ (step s e).physicsPaused = true := by
  cases e with
  | update l r u sp t =>
      have hu : step s (Event.update l r u sp t) = s := by
        simp [step, ShaderScene.update, hg]
      rw [hu]
      exact ⟨rfl, rfl, hg, hp⟩
  | collectStar i sx sv =>
      have hc : step s (Event.collectStar i sx sv) = s := by
        simp [step, canCollect, hp]
      rw [hc]
      exact ⟨rfl, rfl, hg, hp⟩
  | hitBomb =>
      have hb : step s Event.hitBomb = s := by
        simp [step, hp]
      rw [hb]
      exact ⟨rfl, rfl, hg, hp⟩
  | pointerdown => exact absurd rfl hne
  | keyS =>
      have h := keydownS_preserves s
      exact ⟨h.1, h.2.1, h.2.2.1.trans hg, h.2.2.2.2.trans hp⟩

/-- Once the game is over with physics paused, any click-free event sequence
leaves the score, the score text, the game-over flag and the pause flag
untouched. -/
theorem run_frozen (es : List Event) : ∀ s : SceneState,
    s.gameOver = true → s.physicsPaused = true →
    (∀ e ∈ es, e ≠ Event.pointerdown) →
    (run s es).score = s.score ∧ (run s es).scoreText = s.scoreText ∧
    (run s es).gameOver = true ∧ (run s es).physicsPaused = true := by
  induction es with
  | nil => exact fun s hg hp _ => ⟨rfl, rfl, hg, hp⟩
  | cons e es ih =>
      intro s hg hp hne
      have h1 := step_frozen s e hg hp (hne e (List.mem_cons_self e es))
      have h2 := ih (step s e) h1.2.2.1 h1.2.2.2
        (fun x hx => hne x (List.mem_cons_of_mem e hx))
      exact ⟨h2.1.trans h1.1, h2.2.1.trans h1.2.1, h2.2.2.1, h2.2.2.2⟩

/-- C1: a player/bomb contact (`hitBomb`) sets the game-over flag, and from
then on, until the scene is restarted (a restart being a `pointerdown`,
which is the only event that can restart), no sequence of events changes
the score counter or the score text: `update` returns early once `gameOver`
holds, and `collectStar` cannot fire because `hitBomb` paused the physics
world, which stops overlap processing. -/
theorem hitBomb_halts_score (s : SceneState) (hp : s.physicsPaused = false)
    (es : List Event) (hes : ∀ e ∈ es, e ≠ Event.pointerdown) :
    (step s Event.hitBomb).gameOver = true ∧
    (run (step s Event.hitBomb) es).score = (step s Event.hitBomb).score ∧
    (run (step s Event.hitBomb) es).scoreText = (step s Event.hitBomb).scoreText ∧
    (run (step s Event.hitBomb) es).gameOver = true := by
  have hs : step s Event.hitBomb = ShaderScene.hitBomb s := by
    simp [step, hp]
  have h := run_frozen es (step s Event.hitBomb) (by rw [hs]; rfl) (by rw [hs]; rfl) hes
  exact ⟨by rw [hs]; rfl, h.1, h.2.1, h.2.2.1⟩

/-- Witness for C1: a bomb hit in the fresh scene, followed by a key press,
an update tick and an (ignored) star overlap. -/
theorem hitBomb_halts_score_witness :
    (step ShaderScene.create Event.hitBomb).gameOver = true ∧
    (run (step ShaderScene.create Event.hitBomb)
        [Event.keyS, Event.update true false true false true,
         Event.collectStar 0 0 0]).score =
      (step ShaderScene.create Event.hitBomb).score ∧
    (run (step ShaderScene.create Event.hitBomb)
        [Event.keyS, Event.update true false true false true,
         Event.collectStar 0 0 0]).scoreText =
      (step ShaderScene.create Event.hitBomb).scoreText ∧
    (run (step ShaderScene.create Event.hitBomb)
        [Event.keyS, Event.update true false true false true,
         Event.collectStar 0 0 0]).gameOver = true :=
  hitBomb_halts_score ShaderScene.create rfl
    [Event.keyS, Event.update true false true false true, Event.collectStar 0 0 0]
    (by decide)

/-- Every single step either leaves the score no smaller, or is a restart
(re-running `create`). -/
theorem step_score_mono (s : SceneState) (e : Event) :
    s.score ≤ (step s e).score ∨ step s e = ShaderScene.create := by
  cases e with
  | update l r u sp t =>
      left
      show s.score ≤ (ShaderScene.update s l r u sp t).score
      rw [(update_preserves s l r u sp t).1]
  | collectStar i sx sv =>
      left
      show s.score ≤ (if canCollect s i then ShaderScene.collectStar s i sx sv else s).score
      split
      · rw [collectStar_score]
        omega
      · exact le_refl _
  | hitBomb =>
      left
      show s.score ≤ (if s.physicsPaused then s else ShaderScene.hitBomb s).score
      split
      · exact le_refl _
      · exact le_refl _
  | pointerdown =>
      by_cases h : s.gameOver = true
      · right
        simp [step, ShaderScene.pointerdown, h]
      · left
        have hid : step s Event.pointerdown = s := by
          simp [step, ShaderScene.pointerdown, h]
        rw [hid]
  | keyS =>
      left
      show s.score ≤ (ShaderScene.keydownS s).score
      rw [(keydownS_preserves s).1]

/-- In every reachable state the score is non-negative. -/
theorem reachable_score_nonneg {s : SceneState} (h : Reachable s) :
    0 ≤ s.score := by
  induction h with
  | init => exact le_refl 0
  | @step s1 hs e ih =>
      rcases step_score_mono s1 e with h1 | h1
      · omega
      · rw [h1]
        exact le_refl 0

/-- C3: in every reachable state of a scene's lifetime the score is a
non-negative integer; every engine step either keeps the score from
decreasing or is a scene restart (re-running `create`), which resets the
score to zero. -/
theorem score_invariant (s : SceneState) (hr : Reachable s) :
    0 ≤ s.score ∧
    ShaderScene.create.score = 0 ∧
    ∀ e : Event, s.score ≤ (step s e).score ∨ step s e = ShaderScene.create :=
  ⟨reachable_score_nonneg hr, rfl, fun e => step_score_mono s e⟩

/-- Witness for C3 at the freshly created scene. -/
theorem score_invariant_witness :
    (0 ≤ ShaderScene.create.score ∧ ShaderScene.create.score = 0) ∧
    (ShaderScene.create.score ≤ (step ShaderScene.create Event.keyS).score ∨
      step ShaderScene.create Event.keyS = ShaderScene.create) :=
  ⟨⟨(score_invariant ShaderScene.create Reachable.init).1,
    (score_invariant ShaderScene.create Reachable.init).2.1⟩,
   (score_invariant ShaderScene.create Reachable.init).2.2 Event.keyS⟩

/-- A single step keeps the game-over text's visibility equal to the
game-over flag. -/
theorem step_text_sync (s : SceneState) (e : Event)
    (h : s.gameOverTextVisible = s.gameOver) :
    (step s e).gameOverTextVisible = (step s e).gameOver := by
  cases e with
  | update l r u sp t =>
      have hst : step s (Event.update l r u sp t) = ShaderScene.update s l r u sp t := rfl
      rw [hst, (update_preserves s l r u sp t).2.2.2.1, (update_preserves s l r u sp t).2.2.1]
      exact h
  | collectStar i sx sv =>
      have hst : step s (Event.collectStar i sx sv) =
          (if canCollect s i then ShaderScene.collectStar s i sx sv else s) := rfl
      rw [hst]
      split
      · rw [(collectStar_preserves s i sx sv).2.1, (collectStar_preserves s i sx sv).1]
        exact h
      · exact h
  | hitBomb =>
      have hst : step s Event.hitBomb =
          (if s.physicsPaused then s else ShaderScene.hitBomb s) := rfl
      rw [hst]
      split
      · exact h
      · rfl
  | pointerdown =>
      have hst : step s Event.pointerdown =
          (if s.gameOver then ShaderScene.create else s) := rfl
      rw [hst]
      split
      · rfl
      · exact h
  | keyS =>
      have hst : step s Event.keyS = ShaderScene.keydownS s := rfl
      rw [hst, (keydownS_preserves s).2.2.2.1, (keydownS_preserves s).2.2.1]
      exact h

/-- In every reachable state the game-over text is visible exactly when the
game-over flag holds. -/
theorem reachable_text_sync {s : SceneState} (h : Reachable s) :
    s.gameOverTextVisible = s.gameOver := by
  induction h with
  | init => rfl
  | @step s1 hs e ih => exact step_text_sync s1 e ih

/-- C10: in every reachable state the game-over text's visibility equals the
`gameOver` flag; `create` initialises both to false/hidden; `hitBomb` sets
both to true/visible together; and every non-`hitBomb` event either restarts
the scene (re-running `create`) or changes neither field. -/
theorem gameOverText_vis_sync (s : SceneState) (hr : Reachable s) :
    s.gameOverTextVisible = s.gameOver ∧
    ShaderScene.create.gameOver = false ∧
    ShaderScene.create.gameOverTextVisible = false ∧
    (∀ u : SceneState, (ShaderScene.hitBomb u).gameOver = true ∧
        (ShaderScene.hitBomb u).gameOverTextVisible = true) ∧
    (∀ u : SceneState, ∀ e : Event, e ≠ Event.hitBomb →
        step u e = ShaderScene.create ∨
        ((step u e).gameOver = u.gameOver ∧
         (step u e).gameOverTextVisible = u.gameOverTextVisible)) := by
  refine ⟨reachable_text_sync hr, rfl, rfl, fun u => ⟨rfl, rfl⟩, ?_⟩
  intro u e hne
  cases e with
  | update l r u1 sp t =>
      right
      exact ⟨(update_preserves u l r u1 sp t).2.2.1,
        (update_preserves u l r u1 sp t).2.2.2.1⟩
  | collectStar i sx sv =>
      right
      have hst : step u (Event.collectStar i sx sv) =
          (if canCollect u i then ShaderScene.collectStar u i sx sv else u) := rfl
      rw [hst]
      constructor
      · split
        · exact (collectStar_preserves u i sx sv).1
        · rfl
      · split
        · exact (collectStar_preserves u i sx sv).2.1
        · rfl
  | hitBomb => exact absurd rfl hne
  | pointerdown =>
      by_cases h : u.gameOver = true
      · left
        simp [step, ShaderScene.pointerdown, h]
      · right
        have hid : step u Event.pointerdown = u := by
          simp [step, ShaderScene.pointerdown, h]
        rw [hid]
        exact ⟨rfl, rfl⟩
  | keyS =>
      right
      exact ⟨(keydownS_preserves u).2.2.1, (keydownS_preserves u).2.2.2.1⟩

/-- Witness for C10 at the freshly created scene. -/
theorem gameOverText_vis_sync_witness :
    ShaderScene.create.gameOverTextVisible = ShaderScene.create.gameOver ∧
    ShaderScene.create.gameOver = false ∧
    ShaderScene.create.gameOverTextVisible = false :=
  ⟨(gameOverText_vis_sync ShaderScene.create Reachable.init).1,
   (gameOverText_vis_sync ShaderScene.create Reachable.init).2.1,
   (gameOverText_vis_sync ShaderScene.create Reachable.init).2.2.1⟩

/-- Mapping a function that fixes every element of a list is the identity. -/
theorem map_eq_self_of {α : Type} (l : List α) (f : α → α)
    (h : ∀ x ∈ l, f x = x) : l.map f = l := by
  induction l with
  | nil => rfl
  | cons a as ih =>
      rw [List.map_cons, h a (List.mem_cons_self a as),
        ih (fun x hx => h x (List.mem_cons_of_mem a hx))]

/-- A predicate stable under `f` and true on a list stays true after
`modifyIdx`. -/
theorem forall_mem_modifyIdx {α : Type} (P : α → Prop) :
    ∀ (l : List α) (i : Nat) (f : α → α),
      (∀ a ∈ l, P a) → (∀ a ∈ l, P (f a)) → ∀ b ∈ modifyIdx l i f, P b
  | [], _, _, _, _ => by
      intro b hb
      exact absurd hb (List.not_mem_nil b)
  | a :: as, 0, f, h1, h2 => by
      intro b hb
      rcases List.mem_cons.1 hb with rfl | hb
      · exact h2 a (List.mem_cons_self a as)
      · exact h1 b (List.mem_cons_of_mem a hb)
  | a :: as, i + 1, f, h1, h2 => by
      intro b hb
      rcases List.mem_cons.1 hb with rfl | hb
      · exact h1 b (List.mem_cons_self b as)
      · exact forall_mem_modifyIdx P as i f
          (fun x hx => h1 x (List.mem_cons_of_mem a hx))
          (fun x hx => h2 x (List.mem_cons_of_mem a hx)) b hb

/-- The respawn transformation sets the Wave pipeline exactly when the
shader is enabled and otherwise keeps the star's pipeline. -/
theorem respawnStar_pipeline (en : Bool) (c : Star) :
    (respawnStar en c).pipeline = if en then some PKind.wave else c.pipeline := by
  cases en
  · simp [respawnStar, Star.enableBody]
  · simp [respawnStar]

/-- Re-setting a star's pipeline to its current value is the identity. -/
theorem starPipRestore (st : Star) (p : Option PKind) (h : st.pipeline = p) :
    { st with pipeline := p } = st := by
  cases st
  cases h
  rfl

/-- Re-setting a bomb's pipeline to its current value is the identity. -/
theorem bombPipRestore (b : Bomb) (p : Option PKind) (h : b.pipeline = p) :
    { b with pipeline := p } = b := by
  cases b
  cases h
  rfl

/-- Field characterisation of the `keydown-S` handler: the flag flips and
every tracked pipeline is set to match the new flag. -/
theorem keydownS_fields (s : SceneState) :
    (ShaderScene.keydownS s).shaderEnabled = !s.shaderEnabled ∧
    (ShaderScene.keydownS s).skyPipeline =
      some (if !s.shaderEnabled then PKind.wave else PKind.default) ∧
    (ShaderScene.keydownS s).platformPipelines =
      s.platformPipelines.map
        (fun _ => some (if !s.shaderEnabled then PKind.wave else PKind.default)) ∧
    (ShaderScene.keydownS s).stars =
      s.stars.map (fun c =>
        { c with pipeline := some (if !s.shaderEnabled then PKind.wave else PKind.default) }) ∧
    (ShaderScene.keydownS s).playerPipeline =
      some (if !s.shaderEnabled then PKind.wave else PKind.default) ∧
    (ShaderScene.keydownS s).bombs =
      s.bombs.map (fun b =>
        { b with pipeline := some (if !s.shaderEnabled then PKind.wave else PKind.default) }) := by
  unfold ShaderScene.keydownS
  cases hsb : s.shaderEnabled <;> simp [hsb]

/-- `keydown-S` leaves the scene pipeline-synchronised. -/
theorem keydownS_sync (s : SceneState) : PipelineSync (ShaderScene.keydownS s) := by
  obtain ⟨he, hsky, hplat, hstars, hplayer, hbombs⟩ := keydownS_fields s
  unfold PipelineSync AllPipes
  rw [he, hsky, hplat, hstars, hplayer, hbombs]
  refine ⟨rfl, rfl, ?_, ?_, ?_⟩
  · intro q hq
    rcases List.mem_map.1 hq with ⟨a, -, rfl⟩
    rfl
  · intro st hst
    rcases List.mem_map.1 hst with ⟨a, -, rfl⟩
    rfl
  · intro b hb
    rcases List.mem_map.1 hb with ⟨a, -, rfl⟩
    rfl

/-- The freshly created scene is pipeline-synchronised. -/
theorem create_sync : PipelineSync ShaderScene.create := by
  unfold PipelineSync AllPipes ShaderScene.create
  refine ⟨rfl, rfl, ?_, ?_, ?_⟩
  · intro q hq
    simp only [List.mem_cons, List.not_mem_nil, or_false] at hq
    rcases hq with h | h | h | h <;> exact h
  · intro st hst
    rcases List.mem_map.1 hst with ⟨i, -, rfl⟩
    rfl
  · intro b hb
    exact absurd hb (List.not_mem_nil b)

/-- Field characterisation of `update`: no pipeline-relevant field changes
except that, with the shader enabled, pipeline-less bombs get the Wave
pipeline. -/
theorem update_pipes (s : SceneState) (l r u sp t : Bool) :
    (ShaderScene.update s l r u sp t).shaderEnabled = s.shaderEnabled ∧
    (ShaderScene.update s l r u sp t).skyPipeline = s.skyPipeline ∧
    (ShaderScene.update s l r u sp t).playerPipeline = s.playerPipeline ∧
    (ShaderScene.update s l r u sp t).platformPipelines = s.platformPipelines ∧
    (ShaderScene.update s l r u sp t).stars = s.stars ∧
    ((ShaderScene.update s l r u sp t).bombs = s.bombs ∨
      (s.shaderEnabled = true ∧
        (ShaderScene.update s l r u sp t).bombs = s.bombs.map (fun child =>
          if child.pipeline = none then { child with pipeline := some PKind.wave }
          else child))) := by
  simp only [ShaderScene.update]
  split_ifs <;> refine ⟨rfl, rfl, rfl, rfl, rfl, ?_⟩ <;>
    first
      | exact Or.inl rfl
      | exact Or.inr ⟨by assumption, rfl⟩

/-- The bomb loop of `update` keeps every bomb on the Wave pipeline. -/
theorem bombs_map_wave_sync (bombs : List Bomb)
    (h : ∀ b ∈ bombs, b.pipeline = some PKind.wave) :
    ∀ b ∈ bombs.map (fun child =>
        if child.pipeline = none then { child with pipeline := some PKind.wave }
        else child),
      b.pipeline = some PKind.wave := by
  intro b hb
  rcases List.mem_map.1 hb with ⟨a, ha, rfl⟩
  by_cases hn : a.pipeline = none
  · rw [if_pos hn]
  · rw [if_neg hn]
    exact h a ha

/-- `update` preserves pipeline synchronisation. -/
theorem update_sync (s : SceneState) (l r u sp t : Bool) (h : PipelineSync s) :
    PipelineSync (ShaderScene.update s l r u sp t) := by
  obtain ⟨hsky, hplayer, hplat, hstars, hbombs⟩ := h
  obtain ⟨he, h1, h2, h3, h4, h5⟩ := update_pipes s l r u sp t
  unfold PipelineSync AllPipes
  rw [he, h1, h2, h3, h4]
  rcases h5 with h5 | ⟨hen, h5⟩
  · rw [h5]
    exact ⟨hsky, hplayer, hplat, hstars, hbombs⟩
  · rw [h5]
    refine ⟨hsky, hplayer, hplat, hstars, ?_⟩
    rw [hen] at hbombs ⊢
    simp only [if_pos] at hbombs ⊢
    exact bombs_map_wave_sync s.bombs hbombs

/-- `collectStar` preserves pipeline synchronisation. -/
theorem collectStar_sync (s : SceneState) (i sx sv : Nat) (h : PipelineSync s) :
    PipelineSync (ShaderScene.collectStar s i sx sv) := by
  obtain ⟨hsky, hplayer, hplat, hstars, hbombs⟩ := h
  have hstars1 : ∀ st ∈ modifyIdx s.stars i Star.disableBody,
      st.pipeline = some (if s.shaderEnabled then PKind.wave else PKind.default) :=
    forall_mem_modifyIdx _ s.stars i Star.disableBody hstars
      (fun a ha2 => hstars a ha2)
  unfold PipelineSync AllPipes
  simp only [ShaderScene.collectStar]
  by_cases hcnt : countActive (modifyIdx s.stars i Star.disableBody) = 0
  · rw [if_pos hcnt]
    refine ⟨hsky, hplayer, hplat, ?_, ?_⟩
    · intro st hst
      rcases List.mem_map.1 hst with ⟨a, haa, rfl⟩
      rw [respawnStar_pipeline]
      cases hsb : s.shaderEnabled
      · rw [if_neg (by simp [hsb])]
        rw [hsb] at hstars1
        exact hstars1 a haa
      · rw [if_pos (by simp [hsb])]
        rfl
    · intro b hb
      rcases List.mem_append.1 hb with hb | hb
      · exact hbombs b hb
      · rcases List.mem_singleton.1 hb with rfl
        cases hsb : s.shaderEnabled <;> simp [hsb]
  · rw [if_neg hcnt]
    exact ⟨hsky, hplayer, hplat, hstars1, hbombs⟩

/-- Every engine step preserves pipeline synchronisation. -/
theorem step_sync (s : SceneState) (e : Event) (h : PipelineSync s) :
    PipelineSync (step s e) := by
  cases e with
  | update l r u sp t => exact update_sync s l r u sp t h
  | collectStar i sx sv =>
      have hst : step s (Event.collectStar i sx sv) =
          (if canCollect s i then ShaderScene.collectStar s i sx sv else s) := rfl
      rw [hst]
      split
      · exact collectStar_sync s i sx sv h
      · exact h
  | hitBomb =>
      have hst : step s Event.hitBomb =
          (if s.physicsPaused then s else ShaderScene.hitBomb s) := rfl
      rw [hst]
      split
      · exact h
      · exact h
  | pointerdown =>
      have hst : step s Event.pointerdown =
          (if s.gameOver then ShaderScene.create else s) := rfl
      rw [hst]
      split
      · exact create_sync
      · exact h
  | keyS => exact keydownS_sync s

/-- In every reachable state the pipeline assignments agree with the
`shaderEnabled` flag. -/
theorem reachable_sync {s : SceneState} (h : Reachable s) : PipelineSync s := by
  induction h with
  | init => exact create_sync
  | @step s1 hs e ih => exact step_sync s1 e ih

/-- C4: in every reachable state, pressing S twice in succession restores
the `shaderEnabled` flag and the pipeline assignment (Wave versus default)
of the sky, every platform, every star, the player and every bomb to what
they were before the first press. -/
theorem shader_double_toggle (s : SceneState) (hr : Reachable s) :
    (ShaderScene.keydownS (ShaderScene.keydownS s)).shaderEnabled = s.shaderEnabled ∧
    (ShaderScene.keydownS (ShaderScene.keydownS s)).skyPipeline = s.skyPipeline ∧
    (ShaderScene.keydownS (ShaderScene.keydownS s)).platformPipelines =
      s.platformPipelines ∧
    (ShaderScene.keydownS (ShaderScene.keydownS s)).playerPipeline = s.playerPipeline ∧
    (ShaderScene.keydownS (ShaderScene.keydownS s)).stars = s.stars ∧
    (ShaderScene.keydownS (ShaderScene.keydownS s)).bombs = s.bombs := by
  obtain ⟨hsky, hplayer, hplat, hstars, hbombs⟩ := reachable_sync hr
  obtain ⟨he1, hsky1, hplat1, hstars1, hplayer1, hbombs1⟩ := keydownS_fields s
  obtain ⟨he2, hsky2, hplat2, hstars2, hplayer2, hbombs2⟩ :=
    keydownS_fields (ShaderScene.keydownS s)
  rw [he1] at he2 hsky2 hplat2 hstars2 hplayer2 hbombs2
  simp only [Bool.not_not] at he2 hsky2 hplat2 hstars2 hplayer2 hbombs2
  refine ⟨he2, ?_, ?_, ?_, ?_, ?_⟩
  · exact hsky2.trans hsky.symm
  · rw [hplat2, hplat1, List.map_map]
    exact map_eq_self_of _ _ (fun q hq => (hplat q hq).symm)
  · exact hplayer2.trans hplayer.symm
  · rw [hstars2, hstars1, List.map_map]
    exact map_eq_self_of _ _ (fun st hst => starPipRestore st _ (hstars st hst))
  · rw [hbombs2, hbombs1, List.map_map]
    exact map_eq_self_of _ _ (fun b hb => bombPipRestore b _ (hbombs b hb))

/-- Witness for C4 at the freshly created scene. -/
theorem shader_double_toggle_witness :
    (ShaderScene.keydownS (ShaderScene.keydownS ShaderScene.create)).shaderEnabled =
      ShaderScene.create.shaderEnabled ∧
    (ShaderScene.keydownS (ShaderScene.keydownS ShaderScene.create)).skyPipeline =
      ShaderScene.create.skyPipeline ∧
    (ShaderScene.keydownS (ShaderScene.keydownS ShaderScene.create)).platformPipelines =
      ShaderScene.create.platformPipelines ∧
    (ShaderScene.keydownS (ShaderScene.keydownS ShaderScene.create)).playerPipeline =
      ShaderScene.create.playerPipeline ∧
    (ShaderScene.keydownS (ShaderScene.keydownS ShaderScene.create)).stars =
      ShaderScene.create.stars ∧
    (ShaderScene.keydownS (ShaderScene.keydownS ShaderScene.create)).bombs =
      ShaderScene.create.bombs :=
  shader_double_toggle ShaderScene.create Reachable.init

end InnerOrbit
